import Mathlib

/-!
Verification of the OAuth credential lifecycle and pending-authorization
handshake of a Google-Chat CLI agent.

The development shallowly embeds the three source files:
* `agent.py`  — the centralized `get_credentials` helper (cache load, validity
  check, silent refresh, interactive fallback) and the two tool functions
  `search_all_chat_spaces` / `list_space_messages`;
* `helpers.py` — `get_auth_request_function_call` / `get_auth_config`, which
  detect and decode the runtime's pending-credential marker events;
* `cli.py` — `handle_agent_run`, the per-turn driver that streams events,
  suspends on a pending-auth signal, collects the user's callback URL and
  resumes the runtime.

External collaborators (the ADK agent runtime, the Google OAuth endpoints and
the Chat REST API) are modelled as explicit oracle inputs: a `Env` record
says what a refresh attempt and an auth-response lookup would yield, and the
Chat API is a value of an outcome type (a page list, or an HTTP error).
Wall-clock expiry is abstracted into the boolean `TokenSet.expired`, the
validity of the cached token at the moment of the call, mirroring
`google.oauth2.credentials.Credentials.valid = token is not None and not expired`.
-/

namespace ChatAgent

/-- Fixed OAuth scopes, from `agent.py` `SCOPES`. -/
def SCOPES : List String :=
  ["https://www.googleapis.com/auth/chat.spaces.readonly",
   "https://www.googleapis.com/auth/chat.messages.readonly"]

/-- The session-store key under which the token set is cached,
from `agent.py` `TOKEN_CACHE_KEY`. -/
def TOKEN_CACHE_KEY : String := "google_chat_user_tokens"

/-- Process configuration: the environment-sourced OAuth client identity
(`GOOGLE_CLIENT_ID` / `GOOGLE_CLIENT_SECRET`, both `os.environ.get`, hence
optional). Fixed for the lifetime of a process. -/
structure ProcessConfig where
  google_client_id : Option String
  google_client_secret : Option String
  deriving DecidableEq, Repr

/-- A parsed cached credential, abstracting
`google.oauth2.credentials.Credentials`: the access token (may be absent),
the refresh token (may be absent), and whether the credential is expired at
the time of the call.  `valid` in the Google library is
`token is not None and not expired`. -/
structure TokenSet where
  token : Option String
  refresh_token : Option String
  expired : Bool
  deriving DecidableEq, Repr

/-- `Credentials.valid` from the Google auth library. -/
def tokenValid (ts : TokenSet) : Bool :=
  ts.token.isSome && !ts.expired

/-- The (truthy) value stored in the session store under `TOKEN_CACHE_KEY`:
either it parses via `Credentials.from_authorized_user_info` into a
`TokenSet`, or that parse raises (corrupt / incompatible shape). -/
inductive CachedVal where
  | good (ts : TokenSet)
  | corrupt
  deriving DecidableEq, Repr

/-- The OAuth2 payload of an exchanged credential returned by
`tool_context.get_auth_response` (field accesses
`exchanged_credential.oauth2.access_token` / `.refresh_token`). -/
structure ExchangedCred where
  access_token : Option String
  refresh_token : Option String
  deriving DecidableEq, Repr

/-- Outcome of a `creds.refresh(Request())` attempt against the token
endpoint: either a refreshed credential, or an exception of any kind. -/
inductive RefreshOutcome where
  | success (ts : TokenSet)
  | failure
  deriving DecidableEq, Repr

/-- Oracle for the external collaborators consulted by one `get_credentials`
call: what a refresh attempt would yield, and whether the runtime already
holds an exchanged auth response for this request. -/
structure Env where
  refresh : RefreshOutcome
  authResponse : Option ExchangedCred
  deriving DecidableEq, Repr

/-- The authorization-request descriptor carried by every
`AuthConfig(auth_scheme=auth_scheme, raw_auth_credential=auth_credential)`
built in `agent.py`: the OAuth2 authorization-code scheme with its two fixed
endpoints and scope set (`auth_scheme`), plus the client identity
(`auth_credential`). -/
structure AuthRequestDescriptor where
  scheme_type : String
  flow : String
  authorizationUrl : String
  tokenUrl : String
  scopes : List String
  client_id : Option String
  client_secret : Option String
  deriving DecidableEq, Repr

/-- The single descriptor a process builds at configuration time from the
module-level `auth_scheme` and `auth_credential` objects of `agent.py`. -/
def authDescriptor (cfg : ProcessConfig) : AuthRequestDescriptor where
  scheme_type := "oauth2"
  flow := "authorizationCode"
  authorizationUrl := "https://accounts.google.com/o/oauth2/auth"
  tokenUrl := "https://oauth2.googleapis.com/token"
  scopes := SCOPES
  client_id := cfg.google_client_id
  client_secret := cfg.google_client_secret

/-- Result of credential resolution: either usable credentials, or `None`
after `tool_context.request_credential` was invoked with the given
descriptor (the pending-authorization signal). -/
inductive CredResult where
  | creds (ts : TokenSet)
  | pending (d : AuthRequestDescriptor)
  deriving DecidableEq, Repr

/-- Full observable outcome of one `get_credentials` call: the returned
value, the session-store entry under `TOKEN_CACHE_KEY` afterwards, and how
many external token-machinery calls (refresh attempts and auth-response
retrievals) were made. -/
structure ResolveOutcome where
  result : CredResult
  state : Option CachedVal
  netCalls : Nat
  deriving DecidableEq, Repr

/-- `agent.py` lines 51–57: read the cached value; a parse failure prints a
diagnostic, pops the store entry and leaves `creds = None`. Returns the
in-memory credential and the store entry after this block. -/
def loadCached (st : Option CachedVal) : Option TokenSet × Option CachedVal :=
  match st with
  | some (CachedVal.good ts) => (some ts, st)
  | some CachedVal.corrupt => (none, none)
  | none => (none, none)

/-- `agent.py` lines 59–68: if the credential is present but not valid, try a
silent refresh when it is expired and has a refresh token (persisting the
refreshed token on success, dropping the in-memory credential on failure),
otherwise drop it. Returns (credential, store entry, refresh-call count). -/
def refreshStep (env : Env) (c : Option TokenSet × Option CachedVal) :
    Option TokenSet × Option CachedVal × Nat :=
  match c.1 with
  | some ts =>
    if tokenValid ts then (some ts, c.2, 0)
    else if ts.expired && ts.refresh_token.isSome then
      match env.refresh with
      | RefreshOutcome.success nts => (some nts, some (CachedVal.good nts), 1)
      | RefreshOutcome.failure => (none, c.2, 1)
    else (none, c.2, 0)
  | none => (none, c.2, 0)

/-- `agent.py` lines 70–90: with no usable credential, consult
`get_auth_response`; on an exchanged credential mint and persist a fresh
`TokenSet` (fresh expiry, hence unexpired), otherwise call
`request_credential` with the canonical descriptor and return `None`. -/
def interactiveStep (cfg : ProcessConfig) (env : Env)
    (c : Option TokenSet × Option CachedVal × Nat) : ResolveOutcome :=
  match c.1 with
  | some ts => { result := CredResult.creds ts, state := c.2.1, netCalls := c.2.2 }
  | none =>
    match env.authResponse with
    | some ex =>
      { result := CredResult.creds
          { token := ex.access_token, refresh_token := ex.refresh_token, expired := false }
        state := some (CachedVal.good
          { token := ex.access_token, refresh_token := ex.refresh_token, expired := false })
        netCalls := c.2.2 + 1 }
    | none =>
      { result := CredResult.pending (authDescriptor cfg)
        state := c.2.1
        netCalls := c.2.2 + 1 }

/-- `agent.py` `get_credentials`: cache load, validity/refresh step, then the
interactive fallback. -/
def get_credentials (cfg : ProcessConfig) (st : Option CachedVal) (env : Env) :
    ResolveOutcome :=
  interactiveStep cfg env (refreshStep env (loadCached st))

/-! ## The Chat API tools (`agent.py` `search_all_chat_spaces` / `list_space_messages`) -/

/-- One space record returned by `spaces().list` (only the fields the code
reads: `displayName` and `name`, both may be absent). -/
structure Space where
  displayName : Option String
  name : Option String
  deriving DecidableEq, Repr

/-- One page of a `spaces().list` response. -/
structure SpacePage where
  spaces : List Space
  nextPageToken : Option String
  deriving DecidableEq, Repr

/-- One message record returned by `spaces().messages().list` (only the
fields the code reads). -/
structure ChatMessage where
  sender_displayName : Option String
  text : Option String
  createTime : Option String
  deriving DecidableEq, Repr

/-- One page of a `spaces().messages().list` response. -/
structure MessagePage where
  messages : List ChatMessage
  nextPageToken : Option String
  deriving DecidableEq, Repr

/-- Outcome of the paginated API interaction inside a tool's `try` block:
either the sequence of pages the backing source yields (consumed in order by
successive `pageToken` requests), or an `HttpError` raised by some call (the
code discards any partial results and reports the error either way). -/
inductive ApiOutcome (π : Type) where
  | ok (pages : List π)
  | httpError (reason : String)
  deriving DecidableEq, Repr

/-- Python truthiness of a `nextPageToken` value: present and non-empty. -/
def tokenTruthy (t : Option String) : Bool :=
  match t with
  | some s => !(s = "")
  | none => false

/-- The entry dictionary `list_space_messages` builds for each message:
`{"author": ..., "text": ..., "createTime": ...}`. -/
structure MessageEntry where
  author : Option String
  text : Option String
  createTime : Option String
  deriving DecidableEq, Repr

/-- The dictionary a tool returns: a `status`/`message` pair, a
`status`/`found_spaces` pair, or a bare `messages` list. -/
inductive ToolResponse where
  | statusMsg (status : String) (message : String)
  | foundSpaces (status : String) (spaces : List Space)
  | messagesResult (msgs : List MessageEntry)
  deriving DecidableEq, Repr

/-- Python `needle in hay` on lists of characters:
`listPrefixOf n h` is `n` being an initial segment of `h`. -/
def listPrefixOf : List Char → List Char → Bool
  | [], _ => true
  | _ :: _, [] => false
  | a :: xs, b :: ys => a = b && listPrefixOf xs ys

/-- Python substring containment `needle in hay` over character lists. -/
def listContains (needle : List Char) : List Char → Bool
  | [] => needle.isEmpty
  | c :: rest => listPrefixOf needle (c :: rest) || listContains needle rest

/-- `agent.py` lines 102–108: exhaust `spaces().list` pages, concatenating
`response.get("spaces", [])`, until a page has no (truthy) `nextPageToken`. -/
def collectSpaces : List SpacePage → List Space
  | [] => []
  | p :: rest =>
    p.spaces ++ (if tokenTruthy p.nextPageToken then collectSpaces rest else [])

/-- The filtering comprehension of `search_all_chat_spaces`:
case-insensitive substring match of the query against
`space.get("displayName", "")`, projecting to `displayName`/`name` pairs. -/
def filterSpaces (q : String) (spaces : List Space) : List Space :=
  spaces.filterMap fun s =>
    if listContains q.toLower.data ((s.displayName.getD "").toLower).data then
      some { displayName := s.displayName, name := s.name }
    else none

/-- `agent.py` `search_all_chat_spaces`: resolve credentials (returning the
pending dictionary when resolution signals pending authorization), then list
and filter all spaces, mapping an `HttpError` to an error dictionary. -/
def search_all_chat_spaces (display_name_query : String) (cfg : ProcessConfig)
    (st : Option CachedVal) (env : Env) (api : ApiOutcome SpacePage) :
    ToolResponse × Option CachedVal :=
  let r := get_credentials cfg st env
  match r.result with
  | CredResult.pending _ =>
    (ToolResponse.statusMsg "pending" "Awaiting user authentication.", r.state)
  | CredResult.creds _ =>
    match api with
    | ApiOutcome.httpError reason =>
      (ToolResponse.statusMsg "error" ("An API error occurred: " ++ reason), r.state)
    | ApiOutcome.ok pages =>
      let filtered := filterSpaces display_name_query (collectSpaces pages)
      if filtered.isEmpty then
        (ToolResponse.statusMsg "success" "No chat spaces found matching your query.", r.state)
      else
        (ToolResponse.foundSpaces "success" filtered, r.state)

/-- The projection `list_space_messages` applies to each raw message. -/
def projMsg (m : ChatMessage) : MessageEntry :=
  { author := m.sender_displayName, text := m.text, createTime := m.createTime }

/-- `agent.py` lines 133–152: the pagination loop of `list_space_messages`.
`pages` is the sequence of pages the backing source yields; the loop runs
while fewer than 500 entries are accumulated, appends each page's projected
messages, and breaks when a page carries no (truthy) `nextPageToken` — or
when the source yields nothing further.  Also returns the list of pages
actually consumed. -/
def messagesLoop (pages : List MessagePage) (acc : List MessageEntry) :
    List MessageEntry × List MessagePage :=
  if acc.length < 500 then
    match pages with
    | [] => (acc, [])
    | p :: rest =>
      let acc2 := acc ++ p.messages.map projMsg
      if tokenTruthy p.nextPageToken then
        let r := messagesLoop rest acc2
        (r.1, p :: r.2)
      else (acc2, [p])
  else (acc, [])

/-- `agent.py` `list_space_messages`: resolve credentials (returning the
pending dictionary when resolution signals pending authorization), then run
the capped pagination loop, mapping an `HttpError` to an error dictionary.
The `parent` and `filter` arguments only shape the outgoing requests, whose
effect is already reflected in the page sequence the source yields. -/
def list_space_messages (parent : String) (filt : Option String)
    (cfg : ProcessConfig) (st : Option CachedVal) (env : Env)
    (api : ApiOutcome MessagePage) : ToolResponse × Option CachedVal :=
  let r := get_credentials cfg st env
  match r.result with
  | CredResult.pending _ =>
    (ToolResponse.statusMsg "pending" "Awaiting user authentication.", r.state)
  | CredResult.creds _ =>
    match api with
    | ApiOutcome.httpError reason =>
      (ToolResponse.statusMsg "error" ("An API error occurred: " ++ reason), r.state)
    | ApiOutcome.ok pages =>
      (ToolResponse.messagesResult (messagesLoop pages []).1, r.state)

/-- The Chat API contract that each fetched page holds at most the requested
`pageSize = min(500 - len(all_messages), 1000)` messages, checked along
exactly the pages the loop would fetch (`acc` is the entry count accumulated
so far). -/
def honorsPageSize : List MessagePage → Nat → Bool
  | [], _ => true
  | p :: rest, acc =>
    if acc < 500 then
      decide (p.messages.length ≤ min (500 - acc) 1000) &&
      (if tokenTruthy p.nextPageToken then honorsPageSize rest (acc + p.messages.length) else true)
    else true

/-- Soundness of the loop's stopping rule, as a checkable predicate on the
consumed pages: every consumed page was fetched while strictly fewer than
500 entries were accumulated, and every consumed page with a successor
carried a truthy `nextPageToken`. -/
def consumedShape : List MessagePage → Nat → Bool
  | [], _ => true
  | p :: rest, acc =>
    decide (acc < 500) && (rest.isEmpty || tokenTruthy p.nextPageToken) &&
      consumedShape rest (acc + p.messages.length)

/-! ## Events and the pending-auth detector (`helpers.py`) -/

/-- The OAuth2 sub-object of an `AuthConfig`'s
`exchanged_auth_credential.oauth2` that `cli.py` reads and writes
(`auth_uri`, `auth_response_uri`, `redirect_uri`). -/
structure OAuth2Fields where
  auth_uri : Option String
  auth_response_uri : Option String
  redirect_uri : Option String
  deriving DecidableEq, Repr

/-- An `AuthConfig` value as `cli.py` uses it: `exchanged` stands for
`exchanged_auth_credential.oauth2` (absent when either attribute in that
chain is `None`, in which case the attribute access raises). -/
structure AuthConfigData where
  exchanged : Option OAuth2Fields
  deriving DecidableEq, Repr

/-- The `authConfig` entry of the auth-request function call's arguments, as
`get_auth_config` discriminates it: a dict that validates into an
`AuthConfig`, a dict that fails validation, an `AuthConfig` instance, or a
value of any other type. -/
inductive AuthConfigArg where
  | validDict (d : AuthConfigData)
  | invalidDict
  | instanceOf (d : AuthConfigData)
  | otherValue
  deriving DecidableEq, Repr

/-- The arguments dictionary of a function call; `authConfig` is `none` when
the key is absent or its value is falsy. -/
structure FunctionArgs where
  authConfig : Option AuthConfigArg
  deriving DecidableEq, Repr

/-- A `types.FunctionCall`: optional id, name and arguments. -/
structure FunctionCall where
  id : Option String
  name : Option String
  args : Option FunctionArgs
  deriving DecidableEq, Repr

/-- A `types.Part`: optional text and optional function call. -/
structure Part where
  text : Option String
  function_call : Option FunctionCall
  deriving DecidableEq, Repr

/-- A `types.Content`; an absent or `None` `parts` list is the empty list
(both are falsy and treated alike by the code). -/
structure Content where
  parts : List Part
  deriving DecidableEq, Repr

/-- An ADK `Event`: optional content and the optional
`long_running_tool_ids` id set. -/
structure Event where
  content : Option Content
  long_running_tool_ids : Option (List String)
  deriving DecidableEq, Repr

/-- Python `part.function_call.id in event.long_running_tool_ids` with an
optional id against an optional id set (`None in s` is `False`; a falsy set
fails the preceding truthiness conjunct). -/
def idInLrt (i : Option String) (lrt : Option (List String)) : Bool :=
  match i, lrt with
  | some s, some ids => !ids.isEmpty && ids.contains s
  | _, _ => false

/-- The per-part test of `get_auth_request_function_call`, scanning the
parts in order. -/
def findAuthPart (lrt : Option (List String)) : List Part → Option FunctionCall
  | [] => none
  | p :: rest =>
    match p.function_call with
    | some fc =>
      if fc.name = some "adk_request_credential" && idInLrt fc.id lrt then some fc
      else findAuthPart lrt rest
    | none => findAuthPart lrt rest

/-- `helpers.py` `get_auth_request_function_call`: `None` when the event has
no content or no parts; otherwise the first part whose function call is
named `adk_request_credential` and whose id belongs to the event's (truthy)
`long_running_tool_ids` set. -/
def get_auth_request_function_call (e : Event) : Option FunctionCall :=
  match e.content with
  | none => none
  | some c =>
    if c.parts.isEmpty then none
    else findAuthPart e.long_running_tool_ids c.parts

/-- `helpers.py` `get_auth_config`: raise unless the call's arguments hold a
truthy `authConfig` that is a validating dict or an `AuthConfig` instance. -/
def get_auth_config (fc : FunctionCall) : Except String AuthConfigData :=
  match fc.args with
  | none => Except.error "Cannot get auth config from function call"
  | some args =>
    match args.authConfig with
    | none => Except.error "Cannot get auth config from function call"
    | some (AuthConfigArg.validDict d) => Except.ok d
    | some AuthConfigArg.invalidDict => Except.error "auth config failed validation"
    | some (AuthConfigArg.instanceOf d) => Except.ok d
    | some AuthConfigArg.otherValue => Except.error "auth config is not an instance of AuthConfig"

/-! ## The conversational turn driver (`cli.py` `handle_agent_run`)

The driver is modelled as a function from its inputs — the session ids, the
event stream of the initial run, the callback URL the user would paste when
prompted, and the event stream the runtime would produce on resumption — to
the ordered list of observable actions it performs.  Static console banners
(the `AUTHENTICATION REQUIRED` instructions and the derived authorization
URL, which are display-only) are not recorded as actions. -/

/-- The fixed local redirect address of `cli.py`. -/
def REDIRECT_URI : String := "http://localhost:8000/callback"

/-- Python `str.strip()` on a character list: drop leading and trailing
whitespace. -/
def stripChars (l : List Char) : List Char :=
  ((l.dropWhile Char.isWhitespace).reverse.dropWhile Char.isWhitespace).reverse

/-- Python `str.strip()`. -/
def pyStrip (s : String) : String := String.mk (stripChars s.data)

/-- Identifiers of the session a turn runs on. -/
structure SessionIds where
  session_id : String
  user_id : String
  deriving DecidableEq, Repr

/-- The synthetic resumption message `runner.run_async` is invoked with: the
session addressing and the `types.FunctionResponse` carrying the
auth-request call's id and name and the updated `AuthConfig` dump. -/
structure Submission where
  session_id : String
  user_id : String
  response_id : Option String
  response_name : Option String
  payload : AuthConfigData
  deriving DecidableEq, Repr

/-- One observable step of the driver. -/
inductive Action where
  | consume (e : Event)
  | consumeResume (e : Event)
  | print (s : String)
  | promptUser
  | submitResume (s : Submission)
  | raiseError (msg : String)
  deriving DecidableEq, Repr

/-- `event.content.parts[0].text if event.content and event.content.parts
else None`, then the walrus truthiness test: the non-empty text of the first
part, if any. -/
def eventTextTruthy (e : Event) : Option String :=
  match e.content with
  | none => none
  | some c =>
    match c.parts with
    | [] => none
    | p :: _ =>
      match p.text with
      | some t => if t = "" then none else some t
      | none => none

/-- The transcript prints a single event causes. -/
def textActions (e : Event) : List Action :=
  match eventTextTruthy e with
  | some t => [Action.print t]
  | none => []

/-- The actions caused by consuming one event of the initial stream. -/
def evActs (e : Event) : List Action :=
  Action.consume e :: textActions e

/-- The actions caused by consuming one event of the resumption stream. -/
def resumeActs (e : Event) : List Action :=
  Action.consumeResume e :: textActions e

/-- `cli.py` lines 34–39: the first `async for` loop — print each event's
(first-part) text as it arrives, and break out of the stream the moment an
auth-request function call is detected.  Returns the trace and the detected
call, if any. -/
def consumeLoop : List Event → List Action × Option FunctionCall
  | [] => ([], none)
  | e :: rest =>
    match get_auth_request_function_call e with
    | some fc => (evActs e, some fc)
    | none =>
      let r := consumeLoop rest
      (evActs e ++ r.1, r.2)

/-- `cli.py` lines 77–80: the post-resumption `async for` loop, which only
prints text — it never inspects events for auth requests. -/
def resumeLoop (evs : List Event) : List Action :=
  evs.flatMap resumeActs

/-- `cli.py` `handle_agent_run` on a single turn.  `events` is the initial
run's stream, `userInput` what `get_user_input` returns at the consent
prompt, `eventsAfter` the stream of the resumption run. -/
def handle_agent_run (sess : SessionIds) (events : List Event)
    (userInput : String) (eventsAfter : List Event) : List Action :=
  let scan := consumeLoop events
  match scan.2 with
  | none => scan.1
  | some fc =>
    match get_auth_config fc with
    | Except.error msg => scan.1 ++ [Action.raiseError msg]
    | Except.ok cfg =>
      match cfg.exchanged with
      | none =>
        scan.1 ++ [Action.raiseError "exchanged auth credential is not populated"]
      | some o =>
        scan.1 ++ [Action.promptUser] ++
        (if pyStrip userInput = "" then [Action.print "Authentication cancelled."]
         else
           Action.submitResume
             { session_id := sess.session_id
               user_id := sess.user_id
               response_id := fc.id
               response_name := fc.name
               payload :=
                 { exchanged := some
                     { o with auth_response_uri := some (pyStrip userInput)
                              redirect_uri := some REDIRECT_URI } } } ::
           resumeLoop eventsAfter)

/-! ### Trace projections -/

/-- Events consumed from the initial stream, in order. -/
def consumedOf (tr : List Action) : List Event :=
  tr.filterMap fun a =>
    match a with
    | Action.consume e => some e
    | _ => none

/-- Events consumed from the resumption stream, in order. -/
def resumeConsumedOf (tr : List Action) : List Event :=
  tr.filterMap fun a =>
    match a with
    | Action.consumeResume e => some e
    | _ => none

/-- Text emitted to the user-visible transcript, in order. -/
def transcriptOf (tr : List Action) : List String :=
  tr.filterMap fun a =>
    match a with
    | Action.print s => some s
    | _ => none

/-- Synthetic resumption messages submitted to the runtime, in order. -/
def submissionsOf (tr : List Action) : List Submission :=
  tr.filterMap fun a =>
    match a with
    | Action.submitResume s => some s
    | _ => none

/-- Errors raised by the driver, in order. -/
def errorsOf (tr : List Action) : List String :=
  tr.filterMap fun a =>
    match a with
    | Action.raiseError m => some m
    | _ => none

/-- Number of consent prompts shown to the user. -/
def promptCount (tr : List Action) : Nat :=
  (tr.filterMap fun a =>
    match a with
    | Action.promptUser => some ()
    | _ => none).length

/-- Whenever a `mark e` action occurs at position `i` of the trace and `e`
carries truthy text `t`, the very next trace position prints `t`: the text is
emitted the instant the event arrives, not buffered. -/
def FollowedByPrint (mark : Event → Action) (tr : List Action) : Prop :=
  ∀ i e t, tr.get? i = some (mark e) → eventTextTruthy e = some t →
    tr.get? (i + 1) = some (Action.print t)

/-- Each initial-stream event's truthy text is printed in the action
directly following its consumption. -/
def PrintsImmediately (tr : List Action) : Prop :=
  FollowedByPrint Action.consume tr

/-- Each resumption-stream event's truthy text is printed in the action
directly following its consumption. -/
def ResumePrintsImmediately (tr : List Action) : Prop :=
  FollowedByPrint Action.consumeResume tr

/-! ### Concrete instances used by witnesses and counterexamples -/

/-- A sample session. -/
def sampleSession : SessionIds :=
  { session_id := "session-1", user_id := "cli-user" }

/-- An event carrying plain text in its first part. -/
def textEvent : Event :=
  { content := some { parts := [{ text := some "hello", function_call := none }] }
    long_running_tool_ids := none }

/-- An event whose first part is empty and whose second part carries text:
the code prints nothing for it. -/
def secondPartTextEvent : Event :=
  { content := some { parts := [{ text := none, function_call := none },
                                { text := some "hello", function_call := none }] }
    long_running_tool_ids := none }

/-- A well-formed `adk_request_credential` function call. -/
def authFC : FunctionCall :=
  { id := some "call-1"
    name := some "adk_request_credential"
    args := some { authConfig := some (AuthConfigArg.validDict
      { exchanged := some { auth_uri := some "https://accounts.google.com/o/oauth2/auth?c=1"
                            auth_response_uri := none
                            redirect_uri := none } }) } }

/-- An event carrying the pending-auth signal for `authFC`. -/
def authEvent : Event :=
  { content := some { parts := [{ text := none, function_call := some authFC }] }
    long_running_tool_ids := some ["call-1"] }

/-! ## Theorems -/

/-- Every pending result of `get_credentials` carries the canonical
descriptor built from the process configuration. -/
lemma pending_desc_eq (cfg : ProcessConfig) (st : Option CachedVal) (env : Env)
    (d : AuthRequestDescriptor)
    (h : (get_credentials cfg st env).result = CredResult.pending d) :
    d = authDescriptor cfg := by
  unfold get_credentials interactiveStep at h
  rcases hc : (refreshStep env (loadCached st)).1 with _ | ts
  · rw [hc] at h
    rcases ha : env.authResponse with _ | ex
    · rw [ha] at h
      simpa using h.symm
    · rw [ha] at h
      simp at h
  · rw [hc] at h
    simp at h

/-- C2: with an expired cached token carrying a refresh token, a failed
refresh is absorbed: the returned value is the one the interactive-consent
path yields on an absent credential — a freshly exchanged credential when
the runtime holds an auth response, a pending-authorization signal
otherwise.  No error value exists in the result type: the refresh failure
cannot reach the caller. -/
theorem c2_refresh_failure_absorbed (cfg : ProcessConfig) (ts : TokenSet) (env : Env)
    (hexp : ts.expired = true) (href : ts.refresh_token.isSome = true)
    (hfail : env.refresh = RefreshOutcome.failure) :
    (get_credentials cfg (some (CachedVal.good ts)) env).result =
      (get_credentials cfg none env).result ∧
    ((∃ ex, env.authResponse = some ex ∧
        (get_credentials cfg (some (CachedVal.good ts)) env).result =
          CredResult.creds
            { token := ex.access_token, refresh_token := ex.refresh_token, expired := false }) ∨
      (env.authResponse = none ∧
        (get_credentials cfg (some (CachedVal.good ts)) env).result =
          CredResult.pending (authDescriptor cfg))) := by
  have hval : tokenValid ts = false := by
    simp [tokenValid, hexp]
  rcases ha : env.authResponse with _ | ex
  · constructor
    · simp [get_credentials, loadCached, refreshStep, interactiveStep, hval, hexp, href,
        hfail, ha]
    · right
      exact ⟨rfl, by
        simp [get_credentials, loadCached, refreshStep, interactiveStep, hval, hexp, href,
          hfail, ha]⟩
  · constructor
    · simp [get_credentials, loadCached, refreshStep, interactiveStep, hval, hexp, href,
        hfail, ha]
    · left
      refine ⟨ex, rfl, ?_⟩
      simp [get_credentials, loadCached, refreshStep, interactiveStep, hval, hexp, href,
          hfail, ha]

/-- Witness for C2. -/
theorem c2_witness :
    ({ token := some "tok", refresh_token := some "r", expired := true } : TokenSet).expired = true ∧
    (get_credentials { google_client_id := some "cid", google_client_secret := some "sec" }
        (some (CachedVal.good { token := some "tok", refresh_token := some "r", expired := true }))
        { refresh := RefreshOutcome.failure, authResponse := none }).result =
      (get_credentials { google_client_id := some "cid", google_client_secret := some "sec" }
        none { refresh := RefreshOutcome.failure, authResponse := none }).result :=
  ⟨by decide,
    (c2_refresh_failure_absorbed
      { google_client_id := some "cid", google_client_secret := some "sec" }
      { token := some "tok", refresh_token := some "r", expired := true }
      { refresh := RefreshOutcome.failure, authResponse := none }
      (by decide) (by decide) (by decide)).1⟩

/-- C3: a cached value that fails to parse is popped from the store, and the
call then behaves exactly as with no cached credential — in particular, when
no exchanged auth response is available it emits the pending-authorization
request with the canonical descriptor and leaves the store empty.  The parse
failure is absorbed (no error value exists in the result type). -/
theorem c3_corrupt_cache_cleared (cfg : ProcessConfig) (env : Env) :
    get_credentials cfg (some CachedVal.corrupt) env = get_credentials cfg none env ∧
    (env.authResponse = none →
      get_credentials cfg (some CachedVal.corrupt) env =
        { result := CredResult.pending (authDescriptor cfg), state := none, netCalls := 1 }) := by
  constructor
  · rfl
  · intro ha
    simp [get_credentials, loadCached, refreshStep, interactiveStep, ha]

/-- Witness for C3. -/
theorem c3_witness :
    ({ refresh := RefreshOutcome.failure, authResponse := none } : Env).authResponse = none ∧
    get_credentials { google_client_id := some "cid", google_client_secret := some "sec" }
        (some CachedVal.corrupt)
        { refresh := RefreshOutcome.failure, authResponse := none } =
      { result := CredResult.pending
          (authDescriptor { google_client_id := some "cid", google_client_secret := some "sec" })
        state := none, netCalls := 1 } :=
  ⟨rfl,
    (c3_corrupt_cache_cleared
      { google_client_id := some "cid", google_client_secret := some "sec" }
      { refresh := RefreshOutcome.failure, authResponse := none }).2 rfl⟩

/-- C4: a cached token set that parses and is valid is returned as-is, with
zero refresh/exchange calls and the store entry untouched; hence a second
call in succession (the store being unchanged, under any oracle) returns the
same token set again. -/
theorem c4_valid_cache_idempotent (cfg : ProcessConfig) (ts : TokenSet)
    (env env2 : Env) (hval : tokenValid ts = true) :
    get_credentials cfg (some (CachedVal.good ts)) env =
      { result := CredResult.creds ts, state := some (CachedVal.good ts), netCalls := 0 } ∧
    get_credentials cfg (some (CachedVal.good ts)) env2 =
      { result := CredResult.creds ts, state := some (CachedVal.good ts), netCalls := 0 } := by
  constructor <;>
    simp [get_credentials, loadCached, refreshStep, interactiveStep, hval]

/-- Witness for C4. -/
theorem c4_witness :
    tokenValid { token := some "tok", refresh_token := some "r", expired := false } = true ∧
    get_credentials { google_client_id := some "cid", google_client_secret := some "sec" }
        (some (CachedVal.good { token := some "tok", refresh_token := some "r", expired := false }))
        { refresh := RefreshOutcome.failure, authResponse := none } =
      { result := CredResult.creds { token := some "tok", refresh_token := some "r", expired := false }
        state := some (CachedVal.good { token := some "tok", refresh_token := some "r", expired := false })
        netCalls := 0 } :=
  ⟨by decide,
    (c4_valid_cache_idempotent
      { google_client_id := some "cid", google_client_secret := some "sec" }
      { token := some "tok", refresh_token := some "r", expired := false }
      { refresh := RefreshOutcome.failure, authResponse := none }
      { refresh := RefreshOutcome.failure, authResponse := none }
      (by decide)).1⟩

/-- C5: any two pending-authorization signals emitted by credential
resolution in the same process (same configuration), across arbitrary store
states and oracles, carry the identical descriptor — the one built once from
the fixed configuration. -/
theorem c5_descriptor_invariant (cfg : ProcessConfig)
    (st1 st2 : Option CachedVal) (env1 env2 : Env) (d1 d2 : AuthRequestDescriptor)
    (h1 : (get_credentials cfg st1 env1).result = CredResult.pending d1)
    (h2 : (get_credentials cfg st2 env2).result = CredResult.pending d2) :
    d1 = authDescriptor cfg ∧ d2 = authDescriptor cfg ∧ d1 = d2 := by
  have e1 := pending_desc_eq cfg st1 env1 d1 h1
  have e2 := pending_desc_eq cfg st2 env2 d2 h2
  exact ⟨e1, e2, e1.trans e2.symm⟩

/-- Witness for C5. -/
theorem c5_witness :
    (get_credentials { google_client_id := some "cid", google_client_secret := some "sec" }
        none { refresh := RefreshOutcome.failure, authResponse := none }).result =
      CredResult.pending
        (authDescriptor { google_client_id := some "cid", google_client_secret := some "sec" }) ∧
    authDescriptor { google_client_id := some "cid", google_client_secret := some "sec" } =
      authDescriptor { google_client_id := some "cid", google_client_secret := some "sec" } :=
  ⟨by decide,
    (c5_descriptor_invariant
      { google_client_id := some "cid", google_client_secret := some "sec" }
      none (some CachedVal.corrupt)
      { refresh := RefreshOutcome.failure, authResponse := none }
      { refresh := RefreshOutcome.failure, authResponse := none }
      (authDescriptor { google_client_id := some "cid", google_client_secret := some "sec" })
      (authDescriptor { google_client_id := some "cid", google_client_secret := some "sec" })
      (by decide) (by decide)).2.2⟩

/-- C6: whenever credential resolution signals pending authorization, both
tools return the exact `status = "pending"` dictionary synchronously; the
tools are total functions, so no exception is raised on this path. -/
theorem c6_pending_tool_response (cfg : ProcessConfig) (st : Option CachedVal)
    (env : Env) (d : AuthRequestDescriptor) (q parent : String) (filt : Option String)
    (api1 : ApiOutcome SpacePage) (api2 : ApiOutcome MessagePage)
    (h : (get_credentials cfg st env).result = CredResult.pending d) :
    (search_all_chat_spaces q cfg st env api1).1 =
      ToolResponse.statusMsg "pending" "Awaiting user authentication." ∧
    (list_space_messages parent filt cfg st env api2).1 =
      ToolResponse.statusMsg "pending" "Awaiting user authentication." := by
  constructor <;> simp [search_all_chat_spaces, list_space_messages, h]

/-- Witness for C6. -/
theorem c6_witness :
    (get_credentials { google_client_id := some "cid", google_client_secret := some "sec" }
        none { refresh := RefreshOutcome.failure, authResponse := none }).result =
      CredResult.pending
        (authDescriptor { google_client_id := some "cid", google_client_secret := some "sec" }) ∧
    (search_all_chat_spaces "Team" { google_client_id := some "cid", google_client_secret := some "sec" }
        none { refresh := RefreshOutcome.failure, authResponse := none }
        (ApiOutcome.ok [])).1 =
      ToolResponse.statusMsg "pending" "Awaiting user authentication." :=
  ⟨by decide,
    (c6_pending_tool_response
      { google_client_id := some "cid", google_client_secret := some "sec" }
      none { refresh := RefreshOutcome.failure, authResponse := none }
      (authDescriptor { google_client_id := some "cid", google_client_secret := some "sec" })
      "Team" "spaces/AAA" none (ApiOutcome.ok []) (ApiOutcome.ok [])
      (by decide)).1⟩

/-- The pagination loop's result is the starting accumulator followed by the
projections of exactly the messages of the pages it consumed, in order. -/
lemma messagesLoop_result (pages : List MessagePage) :
    ∀ acc, (messagesLoop pages acc).1 =
      acc ++ ((messagesLoop pages acc).2).flatMap (fun p => p.messages.map projMsg) := by
  induction pages with
  | nil =>
    intro acc
    by_cases h : acc.length < 500 <;> simp [messagesLoop, h]
  | cons p rest ih =>
    intro acc
    by_cases h : acc.length < 500
    · by_cases ht : tokenTruthy p.nextPageToken
      · simp only [messagesLoop, h, if_true, ht]
        rw [ih]
        simp [List.flatMap_cons, List.append_assoc]
      · simp [messagesLoop, h, ht]
    · simp [messagesLoop, h]

/-- The pages the loop consumes are an initial segment of the pages the
source yields. -/
lemma messagesLoop_consumed_init (pages : List MessagePage) :
    ∀ acc, ∃ rest2, (messagesLoop pages acc).2 ++ rest2 = pages := by
  induction pages with
  | nil =>
    intro acc
    by_cases h : acc.length < 500 <;> simp [messagesLoop, h]
  | cons p rest ih =>
    intro acc
    by_cases h : acc.length < 500
    · by_cases ht : tokenTruthy p.nextPageToken
      · simp only [messagesLoop, h, if_true, ht]
        obtain ⟨r2, hr2⟩ := ih (acc ++ p.messages.map projMsg)
        exact ⟨r2, by simp [hr2]⟩
      · simp [messagesLoop, h, ht]
    · simp [messagesLoop, h]

/-- Under the page-size contract, the loop never accumulates more than 500
entries. -/
lemma messagesLoop_cap (pages : List MessagePage) :
    ∀ acc, honorsPageSize pages acc.length = true → acc.length ≤ 500 →
      (messagesLoop pages acc).1.length ≤ 500 := by
  induction pages with
  | nil =>
    intro acc _ hle
    by_cases h : acc.length < 500 <;> simp [messagesLoop, h, hle]
  | cons p rest ih =>
    intro acc hh hle
    by_cases h : acc.length < 500
    · have hh2 := hh
      simp only [honorsPageSize, h, if_true, Bool.and_eq_true, decide_eq_true_eq] at hh2
      have hplen : p.messages.length ≤ 500 - acc.length :=
        le_trans hh2.1 (min_le_left _ _)
      have hacc2 : (acc ++ p.messages.map projMsg).length ≤ 500 := by
        simp only [List.length_append, List.length_map]
        omega
      by_cases ht : tokenTruthy p.nextPageToken
      · simp only [messagesLoop, h, if_true, ht]
        have hh3 : honorsPageSize rest (acc ++ p.messages.map projMsg).length = true := by
          have := hh2.2
          rw [ht] at this
          simpa [List.length_append, List.length_map] using this
        exact ih (acc ++ p.messages.map projMsg) hh3 hacc2
      · simp only [messagesLoop, h, if_true, ht, if_false]
        exact hacc2
    · simp [messagesLoop, h, hle]

/-- The loop's stopping rule: every consumed page was fetched below the cap,
and only token-carrying pages have a successor fetch. -/
lemma messagesLoop_shape (pages : List MessagePage) :
    ∀ acc, consumedShape (messagesLoop pages acc).2 acc.length = true := by
  induction pages with
  | nil =>
    intro acc
    by_cases h : acc.length < 500 <;> simp [messagesLoop, h, consumedShape]
  | cons p rest ih =>
    intro acc
    by_cases h : acc.length < 500
    · by_cases ht : tokenTruthy p.nextPageToken
      · simp only [messagesLoop, h, if_true, ht]
        have := ih (acc ++ p.messages.map projMsg)
        simp only [List.length_append, List.length_map] at this
        simp [consumedShape, h, ht, this]
      · simp [messagesLoop, h, ht, consumedShape]
    · simp [messagesLoop, h, consumedShape]

/-- C7: with usable credentials and the backing source honoring the
requested page sizes, `list_space_messages` returns the loop's accumulation;
it has at most 500 entries, it is an initial segment of the source's full
projected message sequence (hence preserves any pairwise ordering the source
produces, descending creation time in particular), and the loop stops as
soon as 500 entries are accumulated or a page carries no next-page token
(every consumed page was fetched below the cap, every non-final consumed
page carried a token, and the consumed pages are an initial segment of the
source's). -/
theorem c7_pagination_cap (parent : String) (filt : Option String)
    (cfg : ProcessConfig) (st : Option CachedVal) (env : Env) (ts : TokenSet)
    (pages : List MessagePage)
    (hc : (get_credentials cfg st env).result = CredResult.creds ts)
    (hh : honorsPageSize pages 0 = true) :
    (list_space_messages parent filt cfg st env (ApiOutcome.ok pages)).1 =
      ToolResponse.messagesResult (messagesLoop pages []).1 ∧
    (messagesLoop pages []).1.length ≤ 500 ∧
    (∃ rest, (messagesLoop pages []).1 ++ rest =
      pages.flatMap fun p => p.messages.map projMsg) ∧
    (∀ R : MessageEntry → MessageEntry → Prop,
      List.Pairwise R (pages.flatMap fun p => p.messages.map projMsg) →
      List.Pairwise R (messagesLoop pages []).1) ∧
    consumedShape (messagesLoop pages []).2 0 = true ∧
    (∃ restP, (messagesLoop pages []).2 ++ restP = pages) := by
  have hinit := messagesLoop_consumed_init pages []
  obtain ⟨restP, hrestP⟩ := hinit
  have hres := messagesLoop_result pages []
  simp only [List.nil_append] at hres
  have hfull : (messagesLoop pages []).1 ++ restP.flatMap (fun p => p.messages.map projMsg) =
      pages.flatMap fun p => p.messages.map projMsg := by
    rw [hres]
    conv_rhs => rw [← hrestP]
    exact (List.flatMap_append (messagesLoop pages []).2 restP
      (fun p => p.messages.map projMsg)).symm
  refine ⟨by simp [list_space_messages, hc], ?_, ⟨_, hfull⟩, ?_, ?_, ⟨restP, hrestP⟩⟩
  · have := messagesLoop_cap pages [] (by simpa using hh) (by simp)
    exact this
  · intro R hR
    rw [← hfull] at hR
    exact (List.pairwise_append.mp hR).1
  · simpa using messagesLoop_shape pages []

/-- Witness for C7. -/
theorem c7_witness :
    honorsPageSize
        [{ messages := [{ sender_displayName := some "a", text := some "hi", createTime := some "2" },
                        { sender_displayName := some "b", text := some "yo", createTime := some "1" }]
           nextPageToken := some "tk" },
         { messages := [{ sender_displayName := some "c", text := some "ok", createTime := some "0" }]
           nextPageToken := none }] 0 = true ∧
    (messagesLoop
        [{ messages := [{ sender_displayName := some "a", text := some "hi", createTime := some "2" },
                        { sender_displayName := some "b", text := some "yo", createTime := some "1" }]
           nextPageToken := some "tk" },
         { messages := [{ sender_displayName := some "c", text := some "ok", createTime := some "0" }]
           nextPageToken := none }] []).1.length ≤ 500 :=
  ⟨by decide,
    (c7_pagination_cap "spaces/AAA" none
      { google_client_id := some "cid", google_client_secret := some "sec" }
      (some (CachedVal.good { token := some "tok", refresh_token := some "r", expired := false }))
      { refresh := RefreshOutcome.failure, authResponse := none }
      { token := some "tok", refresh_token := some "r", expired := false }
      [{ messages := [{ sender_displayName := some "a", text := some "hi", createTime := some "2" },
                      { sender_displayName := some "b", text := some "yo", createTime := some "1" }]
         nextPageToken := some "tk" },
       { messages := [{ sender_displayName := some "c", text := some "ok", createTime := some "0" }]
         nextPageToken := none }]
      (by decide) (by decide)).2.1⟩

/-! ### Trace lemmas for the turn driver -/

lemma consumedOf_append (l1 l2 : List Action) :
    consumedOf (l1 ++ l2) = consumedOf l1 ++ consumedOf l2 := by
  simp [consumedOf]

lemma resumeConsumedOf_append (l1 l2 : List Action) :
    resumeConsumedOf (l1 ++ l2) = resumeConsumedOf l1 ++ resumeConsumedOf l2 := by
  simp [resumeConsumedOf]

lemma submissionsOf_append (l1 l2 : List Action) :
    submissionsOf (l1 ++ l2) = submissionsOf l1 ++ submissionsOf l2 := by
  simp [submissionsOf]

lemma errorsOf_append (l1 l2 : List Action) :
    errorsOf (l1 ++ l2) = errorsOf l1 ++ errorsOf l2 := by
  simp [errorsOf]

lemma promptCount_append (l1 l2 : List Action) :
    promptCount (l1 ++ l2) = promptCount l1 + promptCount l2 := by
  simp [promptCount]

lemma consumedOf_evActs (e : Event) : consumedOf (evActs e) = [e] := by
  cases h : eventTextTruthy e <;> simp [consumedOf, evActs, textActions, h]

lemma consumedOf_resumeActs (e : Event) : consumedOf (resumeActs e) = [] := by
  cases h : eventTextTruthy e <;> simp [consumedOf, resumeActs, textActions, h]

lemma resumeConsumedOf_evActs (e : Event) : resumeConsumedOf (evActs e) = [] := by
  cases h : eventTextTruthy e <;> simp [resumeConsumedOf, evActs, textActions, h]

lemma resumeConsumedOf_resumeActs (e : Event) : resumeConsumedOf (resumeActs e) = [e] := by
  cases h : eventTextTruthy e <;> simp [resumeConsumedOf, resumeActs, textActions, h]

lemma submissionsOf_evActs (e : Event) : submissionsOf (evActs e) = [] := by
  cases h : eventTextTruthy e <;> simp [submissionsOf, evActs, textActions, h]

lemma submissionsOf_resumeActs (e : Event) : submissionsOf (resumeActs e) = [] := by
  cases h : eventTextTruthy e <;> simp [submissionsOf, resumeActs, textActions, h]

lemma errorsOf_evActs (e : Event) : errorsOf (evActs e) = [] := by
  cases h : eventTextTruthy e <;> simp [errorsOf, evActs, textActions, h]

lemma errorsOf_resumeActs (e : Event) : errorsOf (resumeActs e) = [] := by
  cases h : eventTextTruthy e <;> simp [errorsOf, resumeActs, textActions, h]

lemma promptCount_evActs (e : Event) : promptCount (evActs e) = 0 := by
  cases h : eventTextTruthy e <;> simp [promptCount, evActs, textActions, h]

lemma promptCount_resumeActs (e : Event) : promptCount (resumeActs e) = 0 := by
  cases h : eventTextTruthy e <;> simp [promptCount, resumeActs, textActions, h]

lemma consumedOf_flat_evActs (es : List Event) :
    consumedOf (es.flatMap evActs) = es := by
  induction es with
  | nil => simp [consumedOf]
  | cons e es ih => simp [List.flatMap_cons, consumedOf_append, consumedOf_evActs, ih]

lemma consumedOf_resumeLoop (es : List Event) :
    consumedOf (resumeLoop es) = [] := by
  induction es with
  | nil => simp [resumeLoop, consumedOf]
  | cons e es ih =>
    simp only [resumeLoop, List.flatMap_cons, consumedOf_append, consumedOf_resumeActs] at *
    simpa using ih

lemma resumeConsumedOf_flat_evActs (es : List Event) :
    resumeConsumedOf (es.flatMap evActs) = [] := by
  induction es with
  | nil => simp [resumeConsumedOf]
  | cons e es ih =>
    simp [List.flatMap_cons, resumeConsumedOf_append, resumeConsumedOf_evActs, ih]

lemma resumeConsumedOf_resumeLoop (es : List Event) :
    resumeConsumedOf (resumeLoop es) = es := by
  induction es with
  | nil => simp [resumeLoop, resumeConsumedOf]
  | cons e es ih =>
    simp only [resumeLoop, List.flatMap_cons, resumeConsumedOf_append,
      resumeConsumedOf_resumeActs] at *
    simp [ih]

lemma submissionsOf_flat_evActs (es : List Event) :
    submissionsOf (es.flatMap evActs) = [] := by
  induction es with
  | nil => simp [submissionsOf]
  | cons e es ih => simp [List.flatMap_cons, submissionsOf_append, submissionsOf_evActs, ih]

lemma submissionsOf_resumeLoop (es : List Event) :
    submissionsOf (resumeLoop es) = [] := by
  induction es with
  | nil => simp [resumeLoop, submissionsOf]
  | cons e es ih =>
    simp only [resumeLoop, List.flatMap_cons, submissionsOf_append,
      submissionsOf_resumeActs] at *
    simpa using ih

lemma errorsOf_flat_evActs (es : List Event) :
    errorsOf (es.flatMap evActs) = [] := by
  induction es with
  | nil => simp [errorsOf]
  | cons e es ih => simp [List.flatMap_cons, errorsOf_append, errorsOf_evActs, ih]

lemma promptCount_flat_evActs (es : List Event) :
    promptCount (es.flatMap evActs) = 0 := by
  induction es with
  | nil => simp [promptCount]
  | cons e es ih => simp [List.flatMap_cons, promptCount_append, promptCount_evActs, ih]

lemma promptCount_resumeLoop (es : List Event) :
    promptCount (resumeLoop es) = 0 := by
  induction es with
  | nil => simp [resumeLoop, promptCount]
  | cons e es ih =>
    simp only [resumeLoop, List.flatMap_cons, promptCount_append, promptCount_resumeActs] at *
    simpa using ih

/-- The first loop over a detection-free prefix consumes it whole and
continues on the remaining stream. -/
lemma consumeLoop_append_clean (pre : List Event)
    (hpre : ∀ e ∈ pre, get_auth_request_function_call e = none) (rest : List Event) :
    consumeLoop (pre ++ rest) =
      (pre.flatMap evActs ++ (consumeLoop rest).1, (consumeLoop rest).2) := by
  induction pre with
  | nil => simp
  | cons e pre ih =>
    have he : get_auth_request_function_call e = none := hpre e (by simp)
    have ih2 := ih (fun e' h' => hpre e' (by simp [h']))
    simp [consumeLoop, he, ih2, List.flatMap_cons, List.append_assoc]

/-- The first loop stops at a detected event: its actions are consumed and
the detected call is returned. -/
lemma consumeLoop_detect (e : Event) (post : List Event) (fc : FunctionCall)
    (h : get_auth_request_function_call e = some fc) :
    consumeLoop (e :: post) = (evActs e, some fc) := by
  simp [consumeLoop, h]

/-- The first loop's trace is the per-event action blocks of some event
list (namely, the consumed prefix of the stream). -/
lemma consumeLoop_fst_shape (events : List Event) :
    ∃ es : List Event, (consumeLoop events).1 = es.flatMap evActs := by
  induction events with
  | nil => exact ⟨[], rfl⟩
  | cons e rest ih =>
    cases h : get_auth_request_function_call e with
    | some fc => exact ⟨[e], by simp [consumeLoop, h]⟩
    | none =>
      obtain ⟨es, hes⟩ := ih
      exact ⟨e :: es, by simp [consumeLoop, h, hes, List.flatMap_cons]⟩

lemma consumedOf_prompt : consumedOf [Action.promptUser] = [] := rfl

lemma consumedOf_submit (s : Submission) : consumedOf [Action.submitResume s] = [] := rfl

lemma consumedOf_print (s : String) : consumedOf [Action.print s] = [] := rfl

lemma consumedOf_raise (m : String) : consumedOf [Action.raiseError m] = [] := rfl

lemma resumeConsumedOf_prompt : resumeConsumedOf [Action.promptUser] = [] := rfl

lemma resumeConsumedOf_submit (s : Submission) :
    resumeConsumedOf [Action.submitResume s] = [] := rfl

lemma resumeConsumedOf_print (s : String) : resumeConsumedOf [Action.print s] = [] := rfl

lemma resumeConsumedOf_raise (m : String) : resumeConsumedOf [Action.raiseError m] = [] := rfl

lemma submissionsOf_prompt : submissionsOf [Action.promptUser] = [] := rfl

lemma submissionsOf_submit (s : Submission) : submissionsOf [Action.submitResume s] = [s] := rfl

lemma submissionsOf_print (s : String) : submissionsOf [Action.print s] = [] := rfl

lemma submissionsOf_raise (m : String) : submissionsOf [Action.raiseError m] = [] := rfl

lemma errorsOf_prompt : errorsOf [Action.promptUser] = [] := rfl

lemma errorsOf_submit (s : Submission) : errorsOf [Action.submitResume s] = [] := rfl

lemma errorsOf_print (s : String) : errorsOf [Action.print s] = [] := rfl

lemma promptCount_prompt : promptCount [Action.promptUser] = 1 := rfl

lemma promptCount_submit (s : Submission) : promptCount [Action.submitResume s] = 0 := rfl

lemma promptCount_print (s : String) : promptCount [Action.print s] = 0 := rfl

lemma promptCount_raise (m : String) : promptCount [Action.raiseError m] = 0 := rfl

/-- The full driver trace in the resumed case. -/
lemma handle_agent_run_resumed (sess : SessionIds) (events eventsAfter : List Event)
    (userInput : String) (fc : FunctionCall) (a : AuthConfigData) (o : OAuth2Fields)
    (hdet : (consumeLoop events).2 = some fc)
    (hok : get_auth_config fc = Except.ok a)
    (hex : a.exchanged = some o)
    (hne : ¬ pyStrip userInput = "") :
    handle_agent_run sess events userInput eventsAfter =
      (consumeLoop events).1 ++ [Action.promptUser] ++
        [Action.submitResume
          { session_id := sess.session_id
            user_id := sess.user_id
            response_id := fc.id
            response_name := fc.name
            payload :=
              { exchanged := some
                  { o with auth_response_uri := some (pyStrip userInput)
                           redirect_uri := some REDIRECT_URI } } }] ++
        resumeLoop eventsAfter := by
  simp only [handle_agent_run, hdet, hok, hex]
  simp [hne, List.append_assoc]

/-- C1: on a stream whose first pending-auth event is `e` (detected call
`fc`, carrying a well-formed auth payload — the runtime's contract), with a
non-empty callback from the user, the driver consumes exactly the events up
to and including `e` (all later events are discarded), and submits exactly
one synthetic function-response, on the same session and user, whose id and
name are those of the detected call. -/
theorem c1_stream_stops_single_resume (sess : SessionIds)
    (pre post eventsAfter : List Event) (e : Event) (fc : FunctionCall)
    (userInput : String) (a : AuthConfigData) (o : OAuth2Fields)
    (hpre : ∀ ev ∈ pre, get_auth_request_function_call ev = none)
    (hdet : get_auth_request_function_call e = some fc)
    (hok : get_auth_config fc = Except.ok a)
    (hex : a.exchanged = some o)
    (hne : ¬ pyStrip userInput = "") :
    consumedOf (handle_agent_run sess (pre ++ e :: post) userInput eventsAfter) =
      pre ++ [e] ∧
    (submissionsOf (handle_agent_run sess (pre ++ e :: post) userInput eventsAfter)).map
        (fun s => (s.session_id, s.user_id, s.response_id, s.response_name)) =
      [(sess.session_id, sess.user_id, fc.id, fc.name)] := by
  have hcl : consumeLoop (pre ++ e :: post) = (pre.flatMap evActs ++ evActs e, some fc) := by
    rw [consumeLoop_append_clean pre hpre (e :: post), consumeLoop_detect e post fc hdet]
  have htr := handle_agent_run_resumed sess (pre ++ e :: post) eventsAfter userInput
    fc a o (by rw [hcl]) hok hex hne
  rw [hcl] at htr
  constructor
  · rw [htr]
    simp only [consumedOf_append, consumedOf_flat_evActs, consumedOf_evActs,
      consumedOf_prompt, consumedOf_submit, consumedOf_resumeLoop]
    simp
  · rw [htr]
    simp only [submissionsOf_append, submissionsOf_flat_evActs, submissionsOf_evActs,
      submissionsOf_prompt, submissionsOf_submit, submissionsOf_resumeLoop]
    simp

/-- Witness for C1. -/
theorem c1_witness :
    get_auth_request_function_call authEvent = some authFC ∧
    consumedOf (handle_agent_run sampleSession [textEvent, authEvent, textEvent]
        " https://localhost:8000/callback?code=4/abc " []) = [textEvent, authEvent] :=
  ⟨by decide,
    (c1_stream_stops_single_resume sampleSession [textEvent] [textEvent] [] authEvent authFC
      " https://localhost:8000/callback?code=4/abc "
      { exchanged := some { auth_uri := some "https://accounts.google.com/o/oauth2/auth?c=1"
                            auth_response_uri := none
                            redirect_uri := none } }
      { auth_uri := some "https://accounts.google.com/o/oauth2/auth?c=1"
        auth_response_uri := none
        redirect_uri := none }
      (by decide) (by decide) (by rfl) (by rfl) (by decide)).1⟩

/-- C8: when the turn has entered the consent interaction (a pending-auth
signal was detected and its payload decoded) and the user's callback is
empty or whitespace-only, the trace ends right after the prompt with the
cancellation notice: no synthetic resumption message is submitted, the
resumption stream is never consumed, and no error is raised.  The driver
performs no session-store operation at all; in particular the consent path
writes no token set (only runtime executions triggered by a submission can,
and there is none). -/
theorem c8_cancellation_clean (sess : SessionIds) (events eventsAfter : List Event)
    (userInput : String) (fc : FunctionCall) (a : AuthConfigData) (o : OAuth2Fields)
    (hdet : (consumeLoop events).2 = some fc)
    (hok : get_auth_config fc = Except.ok a)
    (hex : a.exchanged = some o)
    (hempty : pyStrip userInput = "") :
    handle_agent_run sess events userInput eventsAfter =
      (consumeLoop events).1 ++
        [Action.promptUser, Action.print "Authentication cancelled."] ∧
    submissionsOf (handle_agent_run sess events userInput eventsAfter) = [] ∧
    resumeConsumedOf (handle_agent_run sess events userInput eventsAfter) = [] ∧
    errorsOf (handle_agent_run sess events userInput eventsAfter) = [] := by
  have htr : handle_agent_run sess events userInput eventsAfter =
      (consumeLoop events).1 ++
        [Action.promptUser, Action.print "Authentication cancelled."] := by
    simp only [handle_agent_run, hdet, hok, hex]
    simp [hempty]
  obtain ⟨es, hes⟩ := consumeLoop_fst_shape events
  refine ⟨htr, ?_, ?_, ?_⟩ <;> rw [htr, hes]
  · simp only [submissionsOf_append, submissionsOf_flat_evActs]
    rfl
  · simp only [resumeConsumedOf_append, resumeConsumedOf_flat_evActs]
    rfl
  · simp only [errorsOf_append, errorsOf_flat_evActs]
    rfl

/-- Witness for C8. -/
theorem c8_witness :
    pyStrip "   " = "" ∧
    submissionsOf (handle_agent_run sampleSession [textEvent, authEvent] "   " [textEvent]) = [] :=
  ⟨by decide,
    (c8_cancellation_clean sampleSession [textEvent, authEvent] [textEvent] "   " authFC
      { exchanged := some { auth_uri := some "https://accounts.google.com/o/oauth2/auth?c=1"
                            auth_response_uri := none
                            redirect_uri := none } }
      { auth_uri := some "https://accounts.google.com/o/oauth2/auth?c=1"
        auth_response_uri := none
        redirect_uri := none }
      (by rfl) (by rfl) (by rfl) (by decide)).2.1⟩

/-- On every turn, the user is prompted for consent at most once. -/
lemma promptCount_le_one (sess : SessionIds) (events : List Event)
    (userInput : String) (eventsAfter : List Event) :
    promptCount (handle_agent_run sess events userInput eventsAfter) ≤ 1 := by
  obtain ⟨es, hes⟩ := consumeLoop_fst_shape events
  cases h2 : (consumeLoop events).2 with
  | none =>
    simp only [handle_agent_run, h2]
    rw [hes, promptCount_flat_evActs]
    omega
  | some fc =>
    cases hoc : get_auth_config fc with
    | error m =>
      simp only [handle_agent_run, h2, hoc]
      rw [promptCount_append, hes, promptCount_flat_evActs, promptCount_raise]
      omega
    | ok a =>
      cases hexa : a.exchanged with
      | none =>
        simp only [handle_agent_run, h2, hoc, hexa]
        rw [promptCount_append, hes, promptCount_flat_evActs, promptCount_raise]
        omega
      | some o =>
        by_cases ht : pyStrip userInput = ""
        · simp only [handle_agent_run, h2, hoc, hexa, ht, if_true]
          rw [promptCount_append, promptCount_append, hes, promptCount_flat_evActs]
          simp [promptCount]
        · simp only [handle_agent_run, h2, hoc, hexa, ht, if_false]
          rw [promptCount_append, promptCount_append, hes, promptCount_flat_evActs]
          have : promptCount (Action.submitResume
              { session_id := sess.session_id
                user_id := sess.user_id
                response_id := fc.id
                response_name := fc.name
                payload :=
                  { exchanged := some
                      { o with auth_response_uri := some (pyStrip userInput)
                               redirect_uri := some REDIRECT_URI } } } ::
              resumeLoop eventsAfter) = 0 := by
            have hr := promptCount_resumeLoop eventsAfter
            simp only [promptCount] at hr ⊢
            simpa using hr
          rw [this]
          simp [promptCount]

/-- C10: once the driver resumes the runtime with a consent response, the
resumption stream is consumed in full — even when it contains further
pending-auth signals, none is detected or acted upon (no second submission
exists in the trace) — and on any turn whatsoever the user is prompted for
consent at most once. -/
theorem c10_resumption_not_scanned (sess : SessionIds) (events eventsAfter : List Event)
    (userInput : String) (fc : FunctionCall) (a : AuthConfigData) (o : OAuth2Fields)
    (hdet : (consumeLoop events).2 = some fc)
    (hok : get_auth_config fc = Except.ok a)
    (hex : a.exchanged = some o)
    (hne : ¬ pyStrip userInput = "") :
    resumeConsumedOf (handle_agent_run sess events userInput eventsAfter) = eventsAfter ∧
    (submissionsOf (handle_agent_run sess events userInput eventsAfter)).length = 1 ∧
    (∀ (sess2 : SessionIds) (ev2 after2 : List Event) (inp2 : String),
      promptCount (handle_agent_run sess2 ev2 inp2 after2) ≤ 1) := by
  have htr := handle_agent_run_resumed sess events eventsAfter userInput fc a o hdet hok hex hne
  obtain ⟨es, hes⟩ := consumeLoop_fst_shape events
  refine ⟨?_, ?_, fun sess2 ev2 after2 inp2 => promptCount_le_one sess2 ev2 inp2 after2⟩
  · rw [htr, hes]
    simp only [resumeConsumedOf_append, resumeConsumedOf_flat_evActs,
      resumeConsumedOf_prompt, resumeConsumedOf_submit, resumeConsumedOf_resumeLoop]
    simp
  · rw [htr, hes]
    simp only [submissionsOf_append, submissionsOf_flat_evActs,
      submissionsOf_prompt, submissionsOf_submit, submissionsOf_resumeLoop]
    simp

/-- Witness for C10: the resumption stream itself contains a pending-auth
event, and it is consumed like any other rather than triggering a second
consent pass. -/
theorem c10_witness :
    (consumeLoop [authEvent]).2 = some authFC ∧
    resumeConsumedOf (handle_agent_run sampleSession [authEvent]
        "https://localhost:8000/callback?code=4/abc" [authEvent, textEvent]) =
      [authEvent, textEvent] :=
  ⟨by decide,
    (c10_resumption_not_scanned sampleSession [authEvent] [authEvent, textEvent]
      "https://localhost:8000/callback?code=4/abc" authFC
      { exchanged := some { auth_uri := some "https://accounts.google.com/o/oauth2/auth?c=1"
                            auth_response_uri := none
                            redirect_uri := none } }
      { auth_uri := some "https://accounts.google.com/o/oauth2/auth?c=1"
        auth_response_uri := none
        redirect_uri := none }
      (by rfl) (by rfl) (by rfl) (by decide)).1⟩

/-! ### Immediacy of transcript output -/

lemma fbp_nil (mark : Event → Action) : FollowedByPrint mark [] := by
  intro i e t hi _
  simp at hi

lemma fbp_of_not_mem (mark : Event → Action) (tr : List Action)
    (h : ∀ e, mark e ∉ tr) : FollowedByPrint mark tr := by
  intro i e t hi _
  exact absurd (List.get?_mem hi) (h e)

lemma fbp_cons_other (mark : Event → Action) (a : Action) (tr : List Action)
    (ha : ∀ e, a ≠ mark e) (h : FollowedByPrint mark tr) :
    FollowedByPrint mark (a :: tr) := by
  intro i e t hi ht
  cases i with
  | zero =>
    rw [List.get?_cons_zero] at hi
    exact absurd (Option.some.inj hi) (ha e)
  | succ n =>
    rw [List.get?_cons_succ] at hi
    rw [List.get?_cons_succ]
    exact h n e t hi ht

lemma fbp_flat (mark : Event → Action) (acts : Event → List Action)
    (hacts : ∀ e, acts e = mark e :: textActions e)
    (hinj : ∀ e e', mark e = mark e' → e = e')
    (hne : ∀ e s, mark e ≠ Action.print s)
    (es : List Event) (tail : List Action) (htail : FollowedByPrint mark tail) :
    FollowedByPrint mark (es.flatMap acts ++ tail) := by
  induction es with
  | nil => simpa using htail
  | cons e es ih =>
    simp only [List.flatMap_cons, hacts, List.append_assoc, List.cons_append]
    intro i e' t hi ht
    cases i with
    | zero =>
      rw [List.get?_cons_zero] at hi
      have he : e = e' := hinj e e' (Option.some.inj hi)
      subst he
      rw [List.get?_cons_succ]
      simp [textActions, ht]
    | succ n =>
      rw [List.get?_cons_succ] at hi
      rw [List.get?_cons_succ]
      have hrest : FollowedByPrint mark
          (textActions e ++ (es.flatMap acts ++ tail)) := by
        cases htx : eventTextTruthy e with
        | none => simpa [textActions, htx] using ih
        | some t0 =>
          simp only [textActions, htx]
          exact fbp_cons_other mark _ _ (fun e'' hh => hne e'' t0 hh.symm) ih
      exact hrest n e' t hi ht

lemma fbp_prepend (mark : Event → Action) (A B : List Action)
    (hA : ∀ e, mark e ∉ A) (hB : FollowedByPrint mark B) :
    FollowedByPrint mark (A ++ B) := by
  intro i e t hi ht
  by_cases hlt : i < A.length
  · rw [List.get?_append hlt] at hi
    exact absurd (List.get?_mem hi) (hA e)
  · push_neg at hlt
    rw [List.get?_append_right hlt] at hi
    have h1 : A.length ≤ i + 1 := by omega
    rw [List.get?_append_right h1]
    have harith : i + 1 - A.length = (i - A.length) + 1 := by omega
    rw [harith]
    exact hB (i - A.length) e t hi ht

lemma mem_flat_evActs (a : Action) (es : List Event) (h : a ∈ es.flatMap evActs) :
    (∃ e, a = Action.consume e) ∨ (∃ s, a = Action.print s) := by
  rw [List.mem_flatMap] at h
  obtain ⟨e, _, he⟩ := h
  rw [evActs, List.mem_cons] at he
  rcases he with he | he
  · exact Or.inl ⟨e, he⟩
  · cases htx : eventTextTruthy e with
    | none => rw [textActions, htx] at he; simp at he
    | some t =>
      rw [textActions, htx] at he
      simp only [List.mem_singleton] at he
      exact Or.inr ⟨t, he⟩

lemma mem_resumeLoop (a : Action) (es : List Event) (h : a ∈ resumeLoop es) :
    (∃ e, a = Action.consumeResume e) ∨ (∃ s, a = Action.print s) := by
  rw [resumeLoop, List.mem_flatMap] at h
  obtain ⟨e, _, he⟩ := h
  rw [resumeActs, List.mem_cons] at he
  rcases he with he | he
  · exact Or.inl ⟨e, he⟩
  · cases htx : eventTextTruthy e with
    | none => rw [textActions, htx] at he; simp at he
    | some t =>
      rw [textActions, htx] at he
      simp only [List.mem_singleton] at he
      exact Or.inr ⟨t, he⟩

/-- Every trace the driver produces splits into the per-event blocks of the
initial consumption, a middle segment containing no consumption actions, and
the per-event blocks of the resumption consumption. -/
lemma handle_trace_split (sess : SessionIds) (events : List Event)
    (userInput : String) (eventsAfter : List Event) :
    ∃ (es : List Event) (mid : List Action) (after2 : List Event),
      handle_agent_run sess events userInput eventsAfter =
        es.flatMap evActs ++ mid ++ resumeLoop after2 ∧
      (∀ a ∈ mid, (∀ e, a ≠ Action.consume e) ∧ (∀ e, a ≠ Action.consumeResume e)) := by
  obtain ⟨es, hes⟩ := consumeLoop_fst_shape events
  cases h2 : (consumeLoop events).2 with
  | none =>
    refine ⟨es, [], [], ?_, by simp⟩
    simp only [handle_agent_run, h2, hes, resumeLoop]
    simp
  | some fc =>
    cases hoc : get_auth_config fc with
    | error m =>
      refine ⟨es, [Action.raiseError m], [], ?_, by simp⟩
      simp only [handle_agent_run, h2, hoc, hes, resumeLoop]
      simp
    | ok a =>
      cases hexa : a.exchanged with
      | none =>
        refine ⟨es, [Action.raiseError "exchanged auth credential is not populated"], [], ?_,
          by simp⟩
        simp only [handle_agent_run, h2, hoc, hexa, hes, resumeLoop]
        simp
      | some o =>
        by_cases ht : pyStrip userInput = ""
        · refine ⟨es, [Action.promptUser, Action.print "Authentication cancelled."], [], ?_,
            by simp⟩
          simp only [handle_agent_run, h2, hoc, hexa, ht, if_true, hes, resumeLoop]
          simp
        · refine ⟨es,
            [Action.promptUser,
             Action.submitResume
               { session_id := sess.session_id
                 user_id := sess.user_id
                 response_id := fc.id
                 response_name := fc.name
                 payload :=
                   { exchanged := some
                       { o with auth_response_uri := some (pyStrip userInput)
                                redirect_uri := some REDIRECT_URI } } }],
            eventsAfter, ?_, by simp⟩
          simp only [handle_agent_run, h2, hoc, hexa, ht, if_false, hes]
          simp

/-- C9 (amended): in both the initial and the resumption stream, the text the
driver emits for an event — the non-empty text of the event's first part — is
printed in the action immediately following that event's consumption; output
is never buffered to the end of the turn. -/
theorem c9_first_part_text_immediate (sess : SessionIds) (events : List Event)
    (userInput : String) (eventsAfter : List Event) :
    PrintsImmediately (handle_agent_run sess events userInput eventsAfter) ∧
    ResumePrintsImmediately (handle_agent_run sess events userInput eventsAfter) := by
  obtain ⟨es, mid, after2, htr, hmid⟩ :=
    handle_trace_split sess events userInput eventsAfter
  constructor
  · rw [PrintsImmediately, htr, List.append_assoc]
    refine fbp_flat Action.consume evActs (fun _ => rfl)
      (fun e e' h => by injection h) (fun e s h => by cases h) es _ ?_
    refine fbp_of_not_mem _ _ ?_
    intro e hmem
    rw [List.mem_append] at hmem
    rcases hmem with hmem | hmem
    · exact (hmid _ hmem).1 e rfl
    · rcases mem_resumeLoop _ _ hmem with ⟨e', he'⟩ | ⟨s, hs⟩
      · cases he'
      · cases hs
  · rw [ResumePrintsImmediately, htr]
    refine fbp_prepend Action.consumeResume _ _ ?_ ?_
    · intro e hmem
      rw [List.mem_append] at hmem
      rcases hmem with hmem | hmem
      · rcases mem_flat_evActs _ _ hmem with ⟨e', he'⟩ | ⟨s, hs⟩
        · cases he'
        · cases hs
      · exact (hmid _ hmem).2 e rfl
    · have := fbp_flat Action.consumeResume resumeActs (fun _ => rfl)
        (fun e e' h => by injection h) (fun e s h => by cases h) after2 []
        (fbp_nil Action.consumeResume)
      simpa [resumeLoop] using this

/-- Witness for the amended C9: on a one-text-event stream, the print lands
at the position directly after the consume. -/
theorem c9_witness :
    transcriptOf (handle_agent_run sampleSession [textEvent] "" []) = ["hello"] ∧
    (handle_agent_run sampleSession [textEvent] "" []).get? 1 =
      some (Action.print "hello") :=
  ⟨by decide,
    (c9_first_part_text_immediate sampleSession [textEvent] "" []).1
      0 textEvent "hello" (by rfl) (by rfl)⟩

/-- C9 counterexample: an event that carries the text `"hello"` in its
second part while its first part has none; the driver consumes it and emits
nothing to the transcript, refuting that "any textual content carried by
each event" is emitted — only the first part's text ever is
(`event.content.parts[0].text` in `cli.py`). -/
theorem c9_counterexample :
    (secondPartTextEvent.content.map fun c => c.parts.map Part.text) =
      some [none, some "hello"] ∧
    transcriptOf (handle_agent_run sampleSession [secondPartTextEvent] "" []) = [] := by
  constructor
  · rfl
  · rfl

end ChatAgent
